import Mathlib

/-!
Verification development for the ipoam library (github.com/mikioh/ipoam).

The definitions below are a shallow embedding of the library's Go source:

* `maint.go`   — the cookie codec (`icmpCookie`, `udpCookie` and the
  accessors of type `cookie`), the maintenance receiver loop `monitor`,
  and report emission (`writeReport`, `StartReport`, `StopReport`).
* `report.go`  — `parseICMPError`, `parseOrigIP`, `parseOrigUDP`.
* `helper.go`  — `reachable` and the IANA protocol constants.
* `tester.go`  — the `maint` literal built by `NewTester`.

Where the library calls into `golang.org/x/net/icmp`, `golang.org/x/net/ipv4`,
`golang.org/x/net/ipv6` or the standard `net` package, the called functions
(`icmp.ParseMessage`, `icmp.ParseIPv4Header`, `ipv6.ParseHeader`,
`net.IP.To4`, `net.IP.IsMulticast`, `net.IP.Equal`, `net.IPNet.Contains`)
are embedded from those packages' sources as well, since the library's
behaviour depends on them.

Modelling conventions:

* Go byte slices are `List Nat` whose entries denote bytes.
* Go `int` values that can be negative (cookie constructor arguments,
  `parseOrigIP`/`parseOrigUDP` results) are `Int`; a Go conversion
  `cookie(x)` (int → uint64) is `toUInt64`, the two's-complement
  representative modulo 2^64.
* A Go `uint64` is a `Nat` together with explicit `% 2^64` where overflow
  can occur (`cookie.icmpSeq`).
* `net.IP` values are their byte lists (length 4 or 16); the IPv4 source
  and destination addresses recovered by the header parser are kept as
  their four address bytes.
-/

/-! ### IANA protocol constants (conn.go) -/

def ianaProtocolICMP : Nat := 1
def ianaProtocolUDP : Nat := 17
def ianaProtocolIPv6ICMP : Nat := 58

/-! ### Cookie codec (maint.go)

Go source:

  type cookie uint64

  func (c cookie) icmpID() int   { return int(c >> 48) }
  func (c cookie) icmpSeq() int  { return int(c << 16 >> 48) }
  func (c cookie) udpSport() int { return int(c >> 48) }
  func (c cookie) udpDport() int { return int(c << 16 >> 48) }
  func (c cookie) protocol() int { return int(c & 0xff) }

  func icmpCookie(protocol, id, seq int) cookie {
      return cookie(id)&0xffff<<48 | cookie(seq)&0xffff<<32 | cookie(protocol)&0xff
  }

  func udpCookie(protocol, sport, dport int) cookie {
      return cookie(sport)&0xffff<<48 | cookie(dport)&0xffff<<32 | cookie(protocol)&0xff
  }

Go precedence: `&` and `<<` share a level (left to right), `|` binds loosest,
so each summand is `((conv & mask) << shift)`.
-/

/-- Two's-complement representative of a Go `int` converted to `uint64`. -/
def toUInt64 (i : Int) : Nat := (i % ((2 : Int) ^ 64)).toNat

def icmpCookie (protocol id seq : Int) : Nat :=
  ((toUInt64 id &&& 0xffff) <<< 48) ||| ((toUInt64 seq &&& 0xffff) <<< 32) |||
    (toUInt64 protocol &&& 0xff)

def udpCookie (protocol sport dport : Int) : Nat :=
  ((toUInt64 sport &&& 0xffff) <<< 48) ||| ((toUInt64 dport &&& 0xffff) <<< 32) |||
    (toUInt64 protocol &&& 0xff)

namespace cookie

def icmpID (c : Nat) : Int := ((c % 2 ^ 64) >>> 48 : Nat)

def icmpSeq (c : Nat) : Int := ((((c % 2 ^ 64) <<< 16) % 2 ^ 64) >>> 48 : Nat)

def udpSport (c : Nat) : Int := ((c % 2 ^ 64) >>> 48 : Nat)

def udpDport (c : Nat) : Int := ((((c % 2 ^ 64) <<< 16) % 2 ^ 64) >>> 48 : Nat)

def protocol (c : Nat) : Int := ((c % 2 ^ 64) &&& 0xff : Nat)

end cookie

/-! ### ICMP messages (golang.org/x/net/icmp)

`icmp.ParseMessage` and the per-type body parsers (`parseEcho`,
`parseDstUnreach`, `parsePacketTooBig`, `parseTimeExceeded`,
`parseParamProb`, `parseDefaultMessageBody`), embedded from the
`golang.org/x/net/icmp` package that `monitor` and `parseICMPError` call.
An `icmp.Type` is an `ipv4.ICMPType` or an `ipv6.ICMPType`; its
`Protocol()` method returns 1 resp. 58.
-/

/-- Go's `binary.BigEndian.Uint16` of two bytes. -/
def be16 (hi lo : Nat) : Nat := (hi <<< 8) ||| lo

/-- Go's `binary.BigEndian.Uint32` of four bytes. -/
def be32 (b0 b1 b2 b3 : Nat) : Nat := (b0 <<< 24) ||| (b1 <<< 16) ||| (b2 <<< 8) ||| b3

inductive ICMPType
  | v4 (t : Nat)
  | v6 (t : Nat)
deriving DecidableEq

/-- Go's `icmp.Type.Protocol()`: 1 for `ipv4.ICMPType`, 58 for `ipv6.ICMPType`. -/
def ICMPType.protocol : ICMPType → Nat
  | .v4 _ => ianaProtocolICMP
  | .v6 _ => ianaProtocolIPv6ICMP

/-- The `icmp.MessageBody` implementations used by the library. -/
inductive ICMPBody
  | echo (id seq : Nat) (data : List Nat)             -- icmp.Echo
  | dstUnreach (data : List Nat)                      -- icmp.DstUnreach
  | packetTooBig (mtu : Nat) (data : List Nat)        -- icmp.PacketTooBig
  | timeExceeded (data : List Nat)                    -- icmp.TimeExceeded
  | paramProb (pointer : Nat) (data : List Nat)       -- icmp.ParamProb
  | raw (data : List Nat)                             -- icmp.DefaultMessageBody
deriving DecidableEq

/-- Go's `icmp.Message`. -/
structure Message where
  type : ICMPType
  code : Nat
  checksum : Nat
  body : ICMPBody
deriving DecidableEq

/-- The error values produced by the embedded parsers:
`errMessageTooShort` and the unknown-protocol error of `icmp.ParseMessage`,
`errHeaderTooShort` and `errBufferTooShort` of `icmp.ParseIPv4Header` /
`ipv6.ParseHeader`, and report.go's
`fmt.Errorf("ICMP error message too short: %v, %d", m.Type, m.Code)`. -/
inductive ParseErr
  | messageTooShort
  | invalidProtocol
  | headerTooShort
  | bufferTooShort
  | icmpErrorTooShort (t : ICMPType) (code : Nat)
deriving DecidableEq

deriving instance DecidableEq for Except

/-- Go's `parseEcho`: `len(b) < 4` fails; otherwise ID and Seq are the two
big-endian 16-bit words and Data is the rest. -/
def parseEcho (b : List Nat) : Except ParseErr ICMPBody :=
  if b.length < 4 then .error .messageTooShort
  else .ok (.echo (be16 (b.getD 0 0) (b.getD 1 0)) (be16 (b.getD 2 0) (b.getD 3 0)) (b.drop 4))

/-- Go's `parseDstUnreach`: `len(b) < 4` fails; Data is `b[4:]`. -/
def parseDstUnreach (b : List Nat) : Except ParseErr ICMPBody :=
  if b.length < 4 then .error .messageTooShort
  else .ok (.dstUnreach (b.drop 4))

/-- Go's `parsePacketTooBig`: `len(b) < 4` fails; MTU is the big-endian 32-bit
word, Data is `b[4:]`. -/
def parsePacketTooBig (b : List Nat) : Except ParseErr ICMPBody :=
  if b.length < 4 then .error .messageTooShort
  else .ok (.packetTooBig (be32 (b.getD 0 0) (b.getD 1 0) (b.getD 2 0) (b.getD 3 0)) (b.drop 4))

/-- Go's `parseTimeExceeded`: `len(b) < 4` fails; Data is `b[4:]`. -/
def parseTimeExceeded (b : List Nat) : Except ParseErr ICMPBody :=
  if b.length < 4 then .error .messageTooShort
  else .ok (.timeExceeded (b.drop 4))

/-- Go's `parseParamProb`: `len(b) < 4` fails; the pointer is the big-endian
32-bit word for ICMPv6 and `b[0]` for ICMPv4; Data is `b[4:]`. -/
def parseParamProb (proto : Nat) (b : List Nat) : Except ParseErr ICMPBody :=
  if b.length < 4 then .error .messageTooShort
  else if proto = ianaProtocolIPv6ICMP then
    .ok (.paramProb (be32 (b.getD 0 0) (b.getD 1 0) (b.getD 2 0) (b.getD 3 0)) (b.drop 4))
  else .ok (.paramProb (b.getD 0 0) (b.drop 4))

/-- Go's `parseDefaultMessageBody`: Data is all of `b`. -/
def parseDefaultMessageBody (b : List Nat) : Except ParseErr ICMPBody :=
  .ok (.raw b)

/-- The `parseFns` table of `icmp.ParseMessage`, keyed by message type:
echo/echo-reply types parse as `icmp.Echo`, the error message types as
their body types, anything else as `icmp.DefaultMessageBody`. -/
def parseBody (t : ICMPType) (b : List Nat) : Except ParseErr ICMPBody :=
  match t with
  | .v4 0 => parseEcho b            -- ipv4.ICMPTypeEchoReply
  | .v4 3 => parseDstUnreach b      -- ipv4.ICMPTypeDestinationUnreachable
  | .v4 8 => parseEcho b            -- ipv4.ICMPTypeEcho
  | .v4 11 => parseTimeExceeded b   -- ipv4.ICMPTypeTimeExceeded
  | .v4 12 => parseParamProb 1 b    -- ipv4.ICMPTypeParameterProblem
  | .v6 1 => parseDstUnreach b      -- ipv6.ICMPTypeDestinationUnreachable
  | .v6 2 => parsePacketTooBig b    -- ipv6.ICMPTypePacketTooBig
  | .v6 3 => parseTimeExceeded b    -- ipv6.ICMPTypeTimeExceeded
  | .v6 4 => parseParamProb 58 b    -- ipv6.ICMPTypeParameterProblem
  | .v6 128 => parseEcho b          -- ipv6.ICMPTypeEchoRequest
  | .v6 129 => parseEcho b          -- ipv6.ICMPTypeEchoReply
  | _ => parseDefaultMessageBody b

/-- Go's `icmp.ParseMessage(proto, b)`: requires at least the 4-byte ICMP
header; the type byte is `b[0]` (an `ipv4.ICMPType` when proto is 1, an
`ipv6.ICMPType` when proto is 58, otherwise the protocol is unknown), the
code `b[1]`, the checksum the big-endian word `b[2:4]`; the body is parsed
from `b[4:]`. -/
def parseMessage (proto : Nat) (b : List Nat) : Except ParseErr Message :=
  if b.length < 4 then .error .messageTooShort
  else
    match (if proto = ianaProtocolICMP then some (ICMPType.v4 (b.getD 0 0))
           else if proto = ianaProtocolIPv6ICMP then some (ICMPType.v6 (b.getD 0 0))
           else none) with
    | none => .error .invalidProtocol
    | some t =>
      match parseBody t (b.drop 4) with
      | .error e => .error e
      | .ok body => .ok ⟨t, b.getD 1 0, be16 (b.getD 2 0) (b.getD 3 0), body⟩

/-! ### IP headers (golang.org/x/net/icmp, golang.org/x/net/ipv6) -/

/-- Go's `ipv4.Header` (the fields parsed by `icmp.ParseIPv4Header`); `src` and
`dst` are kept as the four IPv4 address bytes. -/
structure IPv4Header where
  version : Nat
  len : Nat
  tos : Nat
  totalLen : Nat
  id : Nat
  flags : Nat
  fragOff : Nat
  ttl : Nat
  protocol : Nat
  checksum : Nat
  src : List Nat
  dst : List Nat
  options : List Nat
deriving DecidableEq

/-- Go's `ipv6.Header`. -/
structure IPv6Header where
  version : Nat
  trafficClass : Nat
  flowLabel : Nat
  payloadLen : Nat
  nextHeader : Nat
  hopLimit : Nat
  src : List Nat
  dst : List Nat
deriving DecidableEq

inductive IPHeader
  | v4 (h : IPv4Header)
  | v6 (h : IPv6Header)
deriving DecidableEq

/-- Go's `icmp.ParseIPv4Header(b)`: fails on fewer than 20 bytes, reads the
header length from the low nibble of `b[0]` (times 4), fails when that
exceeds `len(b)`, and populates the header fields; the total length is
big-endian on the default platforms (non-darwin), the flags are the top
three bits of `b[6]`, the fragment offset the remaining 13 bits of
`b[6:8]`, and the options `b[20:hdrlen]` when `hdrlen > 20`. -/
def parseIPv4Header (b : List Nat) : Except ParseErr IPv4Header :=
  if b.length < 20 then .error .headerTooShort
  else
    let hdrlen := (b.getD 0 0 &&& 0xf) <<< 2
    if hdrlen > b.length then .error .bufferTooShort
    else
      .ok { version := b.getD 0 0 >>> 4
            len := hdrlen
            tos := b.getD 1 0
            totalLen := be16 (b.getD 2 0) (b.getD 3 0)
            id := be16 (b.getD 4 0) (b.getD 5 0)
            flags := (b.getD 6 0 &&& 0xe0) >>> 5
            fragOff := be16 (b.getD 6 0) (b.getD 7 0) &&& 0x1fff
            ttl := b.getD 8 0
            protocol := b.getD 9 0
            checksum := be16 (b.getD 10 0) (b.getD 11 0)
            src := [b.getD 12 0, b.getD 13 0, b.getD 14 0, b.getD 15 0]
            dst := [b.getD 16 0, b.getD 17 0, b.getD 18 0, b.getD 19 0]
            options := if hdrlen - 20 > 0 then (b.drop 20).take (hdrlen - 20) else [] }

/-- Go's `ipv6.ParseHeader(b)`: fails on fewer than 40 bytes; the version is the
high nibble of `b[0]`, the traffic class straddles `b[0]`/`b[1]`, the flow
label the low nibble of `b[1]` and `b[2:4]`, then payload length, next
header, hop limit, and the two 16-byte addresses. -/
def parseIPv6Header (b : List Nat) : Except ParseErr IPv6Header :=
  if b.length < 40 then .error .headerTooShort
  else
    .ok { version := b.getD 0 0 >>> 4
          trafficClass := ((b.getD 0 0 &&& 0xf) <<< 4) ||| (b.getD 1 0 >>> 4)
          flowLabel := ((b.getD 1 0 &&& 0xf) <<< 16) ||| ((b.getD 2 0) <<< 8) ||| b.getD 3 0
          payloadLen := be16 (b.getD 4 0) (b.getD 5 0)
          nextHeader := b.getD 6 0
          hopLimit := b.getD 7 0
          src := (b.drop 8).take 16
          dst := (b.drop 24).take 16 }

/-! ### The ICMP error parser (report.go) -/

/-- The `switch body := m.Body.(type)` of `parseICMPError`: the embedded
data of the four ICMP error body types; `nil` for any other body. -/
def errBodyData : ICMPBody → Option (List Nat)
  | .dstUnreach d => some d
  | .packetTooBig _ d => some d
  | .timeExceeded d => some d
  | .paramProb _ d => some d
  | _ => none

/-- Go's `parseICMPError(m)` (report.go): extract the error body's data, parse
the inner IP header by the message type's protocol, require 8 further bytes
of inner transport beyond header plus options, and return the header and
the remaining payload. -/
def parseICMPError (m : Message) : Except ParseErr (Option IPHeader × List Nat) :=
  let b := (errBodyData m.body).getD []
  if m.type.protocol = ianaProtocolICMP then
    match parseIPv4Header b with
    | .error e => .error e
    | .ok h =>
      if b.length < 20 + h.options.length + 8 then
        .error (.icmpErrorTooShort m.type m.code)
      else .ok (some (.v4 h), b.drop (20 + h.options.length))
  else if m.type.protocol = ianaProtocolIPv6ICMP then
    match parseIPv6Header b with
    | .error e => .error e
    | .ok h =>
      if b.length < 40 + 8 then
        .error (.icmpErrorTooShort m.type m.code)
      else .ok (some (.v6 h), b.drop 40)
  else .ok (none, b)

/-- Go's `parseOrigIP(iph)` (report.go): the inner header's protocol (IPv4) or
next-header (IPv6) field; -1 when the header is neither. -/
def parseOrigIP : Option IPHeader → Int
  | some (.v4 h) => (h.protocol : Nat)
  | some (.v6 h) => (h.nextHeader : Nat)
  | _ => -1

/-- Go's `parseOrigUDP(b)` (report.go): the big-endian source and destination
ports of the inner UDP header; `(-1, -1)` on fewer than 8 bytes. -/
def parseOrigUDP (b : List Nat) : Int × Int :=
  if b.length < 8 then (-1, -1)
  else ((be16 (b.getD 0 0) (b.getD 1 0) : Nat), (be16 (b.getD 2 0) (b.getD 3 0) : Nat))

/-! ### The maintenance receiver (maint.go `monitor`)

`monitor` runs one read loop over the maintenance connection.  Each
iteration reads a packet with `conn.readFrom`, fills the `Report` (declared
once, before the loop), parses the ICMP message, loads the tester's cookie
with a single `atomic.LoadUint64` into the local `mcookie`, and dispatches
on the message type.  The embedding makes each iteration a function of the
connection configuration, the `Report` variable's current value, and the
data the iteration obtains from the outside: the bytes, IP header and
control message returned by `readFrom`, the peer address, the current time,
and the value the cookie field holds at each atomic load performed by the
iteration (`cookieAt k` is the result of the k-th load; the source performs
exactly one, `mcookie := cookie(atomic.LoadUint64(&t.cookie))`).
-/

/-- The `*ipv4.Header` that `conn.readFrom` yields on the raw IPv4
maintenance path; `monitor` reads only its TOS and TTL fields. -/
structure RecvIPv4Header where
  tos : Nat
  ttl : Nat
deriving DecidableEq

/-- The control message returned by `readFrom`: an `*ipv4.ControlMessage`
(TTL, destination, interface index) or an `*ipv6.ControlMessage` (traffic
class, hop limit, destination, interface index). -/
inductive CtrlMsg
  | v4 (ttl : Nat) (dst : List Nat) (ifIndex : Nat)
  | v6 (trafficClass hopLimit : Nat) (dst : List Nat) (ifIndex : Nat)
deriving DecidableEq

/-- An error stored in `Report.Error`: a read error from `conn.readFrom`
(abstracted to a numeric token) or a parse error. -/
inductive Err
  | read (code : Nat)
  | parse (e : ParseErr)
deriving DecidableEq

/-- Go's `ipoam.Report` (report.go).  Field defaults are the Go zero values, the
state of the `var r Report` declared before `monitor`'s loop.  `Interface`
is the interface index resolved by `net.InterfaceByIndex`, `none` for nil. -/
structure Report where
  error : Option Err := none
  time : Nat := 0
  src : List Nat := []
  icmp : Option Message := none
  origHeader : Option IPHeader := none
  origPayload : List Nat := []
  tc : Nat := 0
  hops : Nat := 0
  dst : List Nat := []
  iface : Option Nat := none
deriving DecidableEq, Inhabited

/-- The connection and platform environment of one `monitor` run:
`conn.protocol`, `conn.rawSocket`, `runtime.GOOS`, and the OS interface
table consulted by `net.InterfaceByIndex` (errors are discarded by
`monitor`, so only the optional interface remains). -/
structure Config where
  protocol : Nat
  rawSocket : Bool
  goos : String
  interfaceByIndex : Nat → Option Nat

/-- Everything one successful `readFrom` hands to the loop body, plus the
time of the iteration and the cookie values its atomic loads observe. -/
structure PacketIn where
  now : Nat
  rb : List Nat
  hdr : Option RecvIPv4Header
  cm : Option CtrlMsg
  peer : List Nat
  cookieAt : Nat → Nat

/-- One iteration of `monitor`'s loop after a successful `readFrom`:
returns the updated `Report` variable and the report handed to
`writeReport`, if any.  Mirrors maint.go lines 233..311. -/
def monitorIter (cfg : Config) (r0 : Report) (p : PacketIn) : Report × Option Report :=
  -- r.Time = time.Now(); r.Src is the peer's IP on both sides of the
  -- `if !c.rawSocket` (UDPAddr.IP for datagram sockets, IPAddr.IP for raw).
  let r1 : Report := { r0 with time := p.now, src := p.peer }
  -- switch h := h.(type) { case *ipv4.Header: ... }
  let r2 : Report :=
    match p.hdr with
    | some h =>
      let ra := { r1 with tc := h.tos }
      if cfg.goos = "solaris" then { ra with hops := h.ttl } else ra
    | none => r1
  -- switch cm := cm.(type) { ... }
  let r3 : Report :=
    match p.cm with
    | some (.v4 ttl dst ifIndex) =>
      let ra := if cfg.goos ≠ "solaris" then { r2 with hops := ttl } else r2
      { ra with dst := dst, iface := cfg.interfaceByIndex ifIndex }
    | some (.v6 trafficClass hopLimit dst ifIndex) =>
      { r2 with tc := trafficClass, hops := hopLimit, dst := dst,
                iface := cfg.interfaceByIndex ifIndex }
    | none => r2
  -- m, err := icmp.ParseMessage(c.protocol, rb)
  match parseMessage cfg.protocol p.rb with
  | .error e =>
    let r4 := { r3 with error := some (.parse e) }
    (r4, some r4)
  | .ok m =>
    let r4 := { r3 with icmp := some m }
    -- mcookie := cookie(atomic.LoadUint64(&t.cookie))
    let mcookie := p.cookieAt 0
    if m.type = ICMPType.v4 0 ∨ m.type = ICMPType.v6 129 then
      -- cookie := icmpCookie(c.protocol, m.Body.(*icmp.Echo).ID, m.Body.(*icmp.Echo).Seq);
      -- the type assertion cannot fail: parseMessage yields an echo body
      -- for the echo-reply types (lemma parseMessage_echoReply_body).
      let ck : Nat :=
        match m.body with
        | .echo id seq _ => icmpCookie cfg.protocol id seq
        | _ => 0
      (r4, if ck = mcookie ∨ (cfg.goos = "linux" ∧ cfg.rawSocket = false)
           then some r4 else none)
    else
      -- r.OrigHeader, r.OrigPayload, err = parseICMPError(m)
      match parseICMPError m with
      | .error e =>
        let r5 := { r4 with origHeader := none, origPayload := [], error := some (.parse e) }
        (r5, some r5)
      | .ok (oh, op) =>
        let r5 := { r4 with origHeader := oh, origPayload := op }
        -- switch parseOrigIP(r.OrigHeader)
        let pr := parseOrigIP r5.origHeader
        if pr = (ianaProtocolICMP : Nat) ∨ pr = (ianaProtocolIPv6ICMP : Nat) then
          match parseMessage m.type.protocol r5.origPayload with
          | .error e =>
            let r6 := { r5 with error := some (.parse e) }
            (r6, some r6)
          | .ok m2 =>
            -- var cookie cookie; if echo, ok := m.Body.(*icmp.Echo); ok { ... }
            let ck : Nat :=
              match m2.body with
              | .echo id seq _ => icmpCookie cfg.protocol id seq
              | _ => 0
            (r5, if ck = mcookie ∨ (cfg.goos = "linux" ∧ cfg.rawSocket = false)
                 then some r5 else none)
        else if pr = (ianaProtocolUDP : Nat) then
          let sd := parseOrigUDP r5.origPayload
          let ck := udpCookie ianaProtocolUDP sd.1 sd.2
          (r5, if ck = mcookie then some r5 else none)
        else
          -- default: e.g., ianaProtocolIPv6Frag
          (r5, some r5)

/-- One `readFrom` outcome: a read error (with its transience, i.e.
`err.Timeout() || err.Temporary()`) or a packet. -/
inductive ReadEvent
  | failure (code : Nat) (transient : Bool)
  | success (p : PacketIn)

/-- Go's `monitor`'s loop over a sequence of read outcomes, collecting the
reports handed to `writeReport` in order.  A read error emits an
error-report and continues when transient, terminates otherwise; a packet
is processed by `monitorIter` and the loop continues. -/
def monitorRun (cfg : Config) (r : Report) : List ReadEvent → List Report
  | [] => []
  | .failure code transient :: rest =>
    let r' := { r with error := some (.read code) }
    r' :: (if transient then monitorRun cfg r' rest else [])
  | .success p :: rest =>
    let res := monitorIter cfg r p
    (match res.2 with | some rep => [rep] | none => []) ++ monitorRun cfg res.1 rest

/-! ### Report emission (maint.go `writeReport` and tester.go `NewTester`)

  func (t *maint) writeReport(r *Report) {
      emit := atomic.LoadInt32(&t.emitReport)
      if emit > 0 { t.report <- *r }
  }

`StartReport` stores 1, `StopReport` stores 0, and `NewTester` constructs
`maint{emitReport: 1, report: make(chan Report, 1)}`.  The channel is a
report list; the cookie field completes the `maint` state. -/

structure MaintState where
  cookie : Nat
  emitReport : Int

/-- The `maint` literal of `NewTester` (tester.go): `emitReport: 1`,
remaining fields at their zero values. -/
def newTesterMaint : MaintState := { cookie := 0, emitReport := 1 }

/-- Go's `writeReport`: send on the channel exactly when the atomically loaded
`emitReport` is positive. -/
def writeReport (t : MaintState) (ch : List Report) (r : Report) : List Report :=
  if t.emitReport > 0 then ch ++ [r] else ch

/-- Go's `StartReport`: `atomic.StoreInt32(&t.emitReport, 1)`. -/
def startReport (t : MaintState) : MaintState := { t with emitReport := 1 }

/-- Go's `StopReport`: `atomic.StoreInt32(&t.emitReport, 0)`. -/
def stopReport (t : MaintState) : MaintState := { t with emitReport := 0 }

/-- Go's `setICMPCookie`: `atomic.StoreUint64(&t.cookie, uint64(icmpCookie(...)))`. -/
def setICMPCookie (t : MaintState) (protocol id seq : Int) : MaintState :=
  { t with cookie := icmpCookie protocol id seq }

/-- Go's `setUDPCookie`: `atomic.StoreUint64(&t.cookie, uint64(udpCookie(...)))`. -/
def setUDPCookie (t : MaintState) (protocol sport dport : Int) : MaintState :=
  { t with cookie := udpCookie protocol sport dport }

/-! ### Reachability (helper.go `reachable`) and the `net` package IP
operations it calls (`net.IP.To4`, `net.IP.IsMulticast`, `net.IP.Equal`,
`net.IPNet.Contains`), embedded from the standard library's net/ip.go. -/

/-- Go's `net.IP.To4`: the 4-byte form of an IPv4 address — the address itself
when 4 bytes long, its tail when it is the 16-byte IPv4-in-IPv6 form
(ten zero bytes then 0xff 0xff), nil otherwise. -/
def to4 (ip : List Nat) : Option (List Nat) :=
  if ip.length = 4 then some ip
  else if ip.length = 16 ∧ ip.take 10 = List.replicate 10 0 ∧
          ip.getD 10 0 = 0xff ∧ ip.getD 11 0 = 0xff then some (ip.drop 12)
  else none

/-- Go's `net.IP.IsMulticast`: high nibble 0xe for IPv4 (after To4), first byte
0xff for 16-byte IPv6. -/
def isMulticast (ip : List Nat) : Bool :=
  match to4 ip with
  | some ip4 => (ip4.getD 0 0 &&& 0xf0) == 0xe0
  | none => ip.length == 16 && ip.getD 0 0 == 0xff

/-- The IPv4-in-IPv6 prefix `v4InV6Prefix` of net/ip.go. -/
def v4InV6 : List Nat := [0, 0, 0, 0, 0, 0, 0, 0, 0, 0, 0xff, 0xff]

/-- Go's `net.IP.Equal`: byte equality at equal lengths, and the 4-byte form
equals the 16-byte IPv4-in-IPv6 form of the same address. -/
def ipEqual (ip x : List Nat) : Bool :=
  if ip.length = x.length then ip == x
  else if ip.length = 4 ∧ x.length = 16 then x.take 12 == v4InV6 && ip == x.drop 12
  else if ip.length = 16 ∧ x.length = 4 then ip.take 12 == v4InV6 && ip.drop 12 == x
  else false

/-- Go's `networkNumberAndMask(n)` of net/ip.go: the network number in 4-byte
form when possible, and the mask trimmed to the address length; nil on a
malformed prefix. -/
def networkNumberAndMask (nip mask : List Nat) : Option (List Nat × List Nat) :=
  let ip := match to4 nip with
    | some ip4 => some ip4
    | none => if nip.length = 16 then some nip else none
  match ip with
  | none => none
  | some ip =>
    if mask.length = 4 then
      if ip.length ≠ 4 then none else some (ip, mask)
    else if mask.length = 16 then
      if ip.length = 4 then some (ip, mask.drop 12) else some (ip, mask)
    else none

/-- Go's `net.IPNet.Contains(ip)`: normalize the address to 4-byte form if
possible, require equal lengths with the network number, and compare under
the mask bytewise.  A malformed prefix yields nil number and mask (compared
over zero bytes, as in the source). -/
def ipnetContains (nip mask ip0 : List Nat) : Bool :=
  let nm := (networkNumberAndMask nip mask).getD ([], [])
  let ip := match to4 ip0 with
    | some x => x
    | none => ip0
  if ip.length ≠ nm.1.length then false
  else (List.range ip.length).all fun i =>
    (nm.1.getD i 0 &&& nm.2.getD i 0) == (ip.getD i 0 &&& nm.2.getD i 0)

/-- The `net.Addr` shapes distinguished by `reachable`: `*net.IPNet`,
`*net.TCPAddr`, `*net.UDPAddr`, `*net.IPAddr`, or anything else.  Ports and
zones are never read by `reachable` and are omitted. -/
inductive Addr
  | ipNet (ip mask : List Nat)
  | tcp (ip : List Nat)
  | udp (ip : List Nat)
  | ipa (ip : List Nat)
  | other
deriving DecidableEq

/-- Go's `reachable(tgt, fm)` (helper.go): extract the target's IP (and prefix,
when the target is an `*net.IPNet`); unknown target shapes are unreachable;
a multicast target IP is always reachable; otherwise a known peer shape is
reachable by prefix containment when the target is a prefix, by IP equality
when not; unknown peer shapes are unreachable. -/
def reachable (tgt fm : Addr) : Bool :=
  let tinfo : Option (Option (List Nat × List Nat) × List Nat) :=
    match tgt with
    | .ipNet ip mask => some (some (ip, mask), ip)
    | .tcp ip => some (none, ip)
    | .udp ip => some (none, ip)
    | .ipa ip => some (none, ip)
    | .other => none
  match tinfo with
  | none => false
  | some (ipn, ip) =>
    if isMulticast ip then true
    else
      match fm with
      | .tcp fip | .udp fip | .ipa fip =>
        match ipn with
        | some n => ipnetContains n.1 n.2 fip
        | none => ipEqual ip fip
      | _ => false

/-! ### Wire images of IP headers

`bytes(h)`: the on-the-wire byte string of a well-formed IPv4 or IPv6
header, used to state the error-parser round trip.  The layouts follow
RFC 791 resp. RFC 2460 (and the field placement read back by
`parseIPv4Header`/`parseIPv6Header`). -/

/-- Well-formedness of an `IPv4Header` as a wire header: version 4, length
20 plus the options (a multiple of 4, at most 40, so the length nibble
fits), all fields within their wire widths, 4-byte addresses, byte-valued
options. -/
def validIPv4Header (h : IPv4Header) : Prop :=
  h.version = 4 ∧ h.len = 20 + h.options.length ∧
  h.options.length % 4 = 0 ∧ h.options.length ≤ 40 ∧
  h.tos < 256 ∧ h.totalLen < 65536 ∧ h.id < 65536 ∧
  h.flags < 8 ∧ h.fragOff < 8192 ∧ h.ttl < 256 ∧ h.protocol < 256 ∧
  h.checksum < 65536 ∧
  h.src.length = 4 ∧ h.dst.length = 4 ∧
  (∀ x ∈ h.src, x < 256) ∧ (∀ x ∈ h.dst, x < 256) ∧ (∀ x ∈ h.options, x < 256)

instance (h : IPv4Header) : Decidable (validIPv4Header h) := by
  unfold validIPv4Header; infer_instance

/-- The wire bytes of a well-formed IPv4 header. -/
def marshalIPv4Header (h : IPv4Header) : List Nat :=
  [h.version * 16 + h.len / 4, h.tos, h.totalLen / 256, h.totalLen % 256,
   h.id / 256, h.id % 256, h.flags * 32 + h.fragOff / 256, h.fragOff % 256,
   h.ttl, h.protocol, h.checksum / 256, h.checksum % 256] ++
  h.src ++ h.dst ++ h.options

/-- Well-formedness of an `IPv6Header` as a wire header: version 6, fields
within their wire widths, 16-byte addresses. -/
def validIPv6Header (h : IPv6Header) : Prop :=
  h.version = 6 ∧ h.trafficClass < 256 ∧ h.flowLabel < 1048576 ∧
  h.payloadLen < 65536 ∧ h.nextHeader < 256 ∧ h.hopLimit < 256 ∧
  h.src.length = 16 ∧ h.dst.length = 16

instance (h : IPv6Header) : Decidable (validIPv6Header h) := by
  unfold validIPv6Header; infer_instance

/-- The wire bytes of a well-formed IPv6 header. -/
def marshalIPv6Header (h : IPv6Header) : List Nat :=
  [h.version * 16 + h.trafficClass / 16,
   (h.trafficClass % 16) * 16 + h.flowLabel / 65536,
   h.flowLabel / 256 % 256, h.flowLabel % 256,
   h.payloadLen / 256, h.payloadLen % 256, h.nextHeader, h.hopLimit] ++
  h.src ++ h.dst

/-! ## Arithmetic helper lemmas -/

theorem shiftLeft_lor_eq_add {b k : Nat} (a : Nat) (hb : b < 2 ^ k) :
    (a <<< k) ||| b = a * 2 ^ k + b := by
  rw [Nat.shiftLeft_eq, Nat.mul_comm a (2 ^ k), ← Nat.mul_add_lt_is_or hb]

theorem and_mask_f (x : Nat) : x &&& 0xf = x % 16 := by
  have h := Nat.and_pow_two_sub_one_eq_mod x 4
  norm_num at h
  exact h

theorem and_mask_ff (x : Nat) : x &&& 0xff = x % 256 := by
  have h := Nat.and_pow_two_sub_one_eq_mod x 8
  norm_num at h
  exact h

theorem and_mask_1fff (x : Nat) : x &&& 0x1fff = x % 8192 := by
  have h := Nat.and_pow_two_sub_one_eq_mod x 13
  norm_num at h
  exact h

theorem and_mask_ffff (x : Nat) : x &&& 0xffff = x % 65536 := by
  have h := Nat.and_pow_two_sub_one_eq_mod x 16
  norm_num at h
  exact h

set_option maxRecDepth 4000 in
theorem and_mask_e0 : ∀ x < 256, x &&& 0xe0 = x / 32 * 32 := by decide

theorem toUInt64_of_lt {i : Int} (h0 : 0 ≤ i) (h1 : i < 2 ^ 64) : toUInt64 i = i.toNat := by
  unfold toUInt64
  rw [Int.emod_eq_of_lt h0 (by exact_mod_cast h1)]

/-- The packing expression shared by `icmpCookie` and `udpCookie`, in
arithmetic normal form. -/
theorem cookiePack_eq (a b c : Nat) :
    ((a &&& 0xffff) <<< 48) ||| ((b &&& 0xffff) <<< 32) ||| (c &&& 0xff)
      = (a % 65536) * 2 ^ 48 + (b % 65536) * 2 ^ 32 + c % 256 := by
  rw [Nat.lor_assoc, and_mask_ffff, and_mask_ffff, and_mask_ff]
  rw [shiftLeft_lor_eq_add (b % 65536) (show c % 256 < 2 ^ 32 by
    have := Nat.mod_lt c (show 0 < 256 by norm_num); omega)]
  rw [shiftLeft_lor_eq_add (a % 65536) (show (b % 65536) * 2 ^ 32 + c % 256 < 2 ^ 48 by
    have h1 := Nat.mod_lt b (show 0 < 65536 by norm_num)
    have h2 := Nat.mod_lt c (show 0 < 256 by norm_num)
    have : (b % 65536) * 2 ^ 32 ≤ 65535 * 2 ^ 32 := by
      exact Nat.mul_le_mul_right _ (by omega)
    norm_num at this ⊢
    omega)]
  omega

/-- Reading the three fields back out of a packed cookie value. -/
theorem cookieFields (A B C : Nat) (hA : A < 65536) (hB : B < 65536) (hC : C < 256) :
    ((A * 2 ^ 48 + B * 2 ^ 32 + C) % 2 ^ 64) >>> 48 = A ∧
    ((((A * 2 ^ 48 + B * 2 ^ 32 + C) % 2 ^ 64) <<< 16) % 2 ^ 64) >>> 48 = B ∧
    ((A * 2 ^ 48 + B * 2 ^ 32 + C) % 2 ^ 64) &&& 0xff = C := by
  have p16 : (2 : Nat) ^ 16 = 65536 := by norm_num
  have p32 : (2 : Nat) ^ 32 = 4294967296 := by norm_num
  have p48 : (2 : Nat) ^ 48 = 281474976710656 := by norm_num
  have p64 : (2 : Nat) ^ 64 = 18446744073709551616 := by norm_num
  refine ⟨?_, ?_, ?_⟩
  · rw [Nat.shiftRight_eq_div_pow, p32, p48, p64]
    omega
  · rw [Nat.shiftLeft_eq, Nat.shiftRight_eq_div_pow, p16, p32, p48, p64]
    omega
  · rw [and_mask_ff, p32, p48, p64]
    omega

/-! ## Theorems for the claims -/

/-- C7 (counterexample): the round trip fails as universally stated, since
the constructors mask their arguments to the wire field widths: at
`id = 65536` the identifier reads back as 0. -/
theorem cookie_roundTrip_cex :
    cookie.icmpID (icmpCookie 1 65536 0) = 0 ∧ (65536 : Int) ≠ 0 := by decide

/-- C7 (corrected): for every protocol in [0, 256) and id, seq (resp.
sport, dport) in [0, 65536), the cookie built by `icmpCookie` decomposes
back to those values via `cookie.icmpID`, `cookie.icmpSeq` and
`cookie.protocol`, and the cookie built by `udpCookie` decomposes back via
`cookie.udpSport`, `cookie.udpDport` and `cookie.protocol`. -/
theorem cookie_roundTrip (protocol id seq sport dport : Int)
    (hp0 : 0 ≤ protocol) (hp1 : protocol < 256)
    (hi0 : 0 ≤ id) (hi1 : id < 65536)
    (hs0 : 0 ≤ seq) (hs1 : seq < 65536)
    (ht0 : 0 ≤ sport) (ht1 : sport < 65536)
    (hd0 : 0 ≤ dport) (hd1 : dport < 65536) :
    cookie.icmpID (icmpCookie protocol id seq) = id ∧
    cookie.icmpSeq (icmpCookie protocol id seq) = seq ∧
    cookie.protocol (icmpCookie protocol id seq) = protocol ∧
    cookie.udpSport (udpCookie protocol sport dport) = sport ∧
    cookie.udpDport (udpCookie protocol sport dport) = dport ∧
    cookie.protocol (udpCookie protocol sport dport) = protocol := by
  have hA : id.toNat < 65536 := by omega
  have hB : seq.toNat < 65536 := by omega
  have hC : protocol.toNat < 256 := by omega
  have hS : sport.toNat < 65536 := by omega
  have hD : dport.toNat < 65536 := by omega
  have hIC : icmpCookie protocol id seq
      = id.toNat * 2 ^ 48 + seq.toNat * 2 ^ 32 + protocol.toNat := by
    unfold icmpCookie
    rw [toUInt64_of_lt hi0 (lt_trans hi1 (by norm_num)),
        toUInt64_of_lt hs0 (lt_trans hs1 (by norm_num)),
        toUInt64_of_lt hp0 (lt_trans hp1 (by norm_num)), cookiePack_eq,
        Nat.mod_eq_of_lt hA, Nat.mod_eq_of_lt hB, Nat.mod_eq_of_lt hC]
  have hUC : udpCookie protocol sport dport
      = sport.toNat * 2 ^ 48 + dport.toNat * 2 ^ 32 + protocol.toNat := by
    unfold udpCookie
    rw [toUInt64_of_lt ht0 (lt_trans ht1 (by norm_num)),
        toUInt64_of_lt hd0 (lt_trans hd1 (by norm_num)),
        toUInt64_of_lt hp0 (lt_trans hp1 (by norm_num)), cookiePack_eq,
        Nat.mod_eq_of_lt hS, Nat.mod_eq_of_lt hD, Nat.mod_eq_of_lt hC]
  obtain ⟨f1, f2, f3⟩ := cookieFields id.toNat seq.toNat protocol.toNat hA hB hC
  obtain ⟨g1, g2, g3⟩ := cookieFields sport.toNat dport.toNat protocol.toNat hS hD hC
  unfold cookie.icmpID cookie.icmpSeq cookie.protocol cookie.udpSport cookie.udpDport
  rw [hIC, hUC, f1, f2, f3, g1, g2, g3]
  refine ⟨?_, ?_, ?_, ?_, ?_, ?_⟩ <;> omega

/-- C7 witness at `(protocol, id, seq) = (58, 258, 772)` and
`(sport, dport) = (7, 9)`. -/
theorem cookie_roundTrip_witness :
    cookie.icmpID (icmpCookie 58 258 772) = 258 ∧
    cookie.icmpSeq (icmpCookie 58 258 772) = 772 ∧
    cookie.protocol (icmpCookie 58 258 772) = 58 ∧
    cookie.udpSport (udpCookie 58 7 9) = 7 ∧
    cookie.udpDport (udpCookie 58 7 9) = 9 ∧
    cookie.protocol (udpCookie 58 7 9) = 58 :=
  cookie_roundTrip 58 258 772 7 9 (by decide) (by decide) (by decide) (by decide)
    (by decide) (by decide) (by decide) (by decide) (by decide) (by decide)

/-- C10 (counterexample): the claimed equality characterization fails as
stated, because the 16-bit halves are masked: `icmpCookie 1 65536 1` and
`udpCookie 1 0 1` are equal although `id = 65536` differs from
`sport = 0`. -/
theorem cookie_packing_cex :
    icmpCookie 1 65536 1 = udpCookie 1 0 1 ∧ (65536 : Int) ≠ 0 := by decide

/-- C10 (corrected): `icmpCookie` and `udpCookie` compute the identical
packing function (first argument into bits 63..48, second into bits 47..32,
protocol into bits 7..0); for id, seq, sport, dport within the 16-bit wire
range, an ICMP cookie and a UDP cookie are equal exactly when id equals
sport, seq equals dport, and the protocol bytes agree. -/
theorem cookie_packing :
    (∀ protocol id seq : Int, icmpCookie protocol id seq = udpCookie protocol id seq) ∧
    (∀ p q id seq sport dport : Int,
      0 ≤ id → id < 65536 → 0 ≤ seq → seq < 65536 →
      0 ≤ sport → sport < 65536 → 0 ≤ dport → dport < 65536 →
      (icmpCookie p id seq = udpCookie q sport dport ↔
        id = sport ∧ seq = dport ∧ toUInt64 p &&& 0xff = toUInt64 q &&& 0xff)) := by
  refine ⟨fun protocol id seq => rfl, ?_⟩
  intro p q id seq sport dport hi0 hi1 hs0 hs1 ht0 ht1 hd0 hd1
  have hA : id.toNat < 65536 := by omega
  have hB : seq.toNat < 65536 := by omega
  have hS : sport.toNat < 65536 := by omega
  have hD : dport.toNat < 65536 := by omega
  have hIC : icmpCookie p id seq
      = id.toNat * 2 ^ 48 + seq.toNat * 2 ^ 32 + toUInt64 p % 256 := by
    unfold icmpCookie
    rw [toUInt64_of_lt hi0 (lt_trans hi1 (by norm_num)),
        toUInt64_of_lt hs0 (lt_trans hs1 (by norm_num)), cookiePack_eq,
        Nat.mod_eq_of_lt hA, Nat.mod_eq_of_lt hB]
  have hUC : udpCookie q sport dport
      = sport.toNat * 2 ^ 48 + dport.toNat * 2 ^ 32 + toUInt64 q % 256 := by
    unfold udpCookie
    rw [toUInt64_of_lt ht0 (lt_trans ht1 (by norm_num)),
        toUInt64_of_lt hd0 (lt_trans hd1 (by norm_num)), cookiePack_eq,
        Nat.mod_eq_of_lt hS, Nat.mod_eq_of_lt hD]
  rw [hIC, hUC, and_mask_ff, and_mask_ff]
  have p32 : (2 : Nat) ^ 32 = 4294967296 := by norm_num
  have p48 : (2 : Nat) ^ 48 = 281474976710656 := by norm_num
  rw [p32, p48]
  omega

/-- C10 witness at `(p, q, id, seq, sport, dport) = (3, 3, 5, 6, 5, 6)`. -/
theorem cookie_packing_witness :
    icmpCookie 3 5 6 = udpCookie 3 5 6 ∧
    (icmpCookie 3 5 6 = udpCookie 3 5 6 ↔
      (5 : Int) = 5 ∧ (6 : Int) = 6 ∧ toUInt64 3 &&& 0xff = toUInt64 3 &&& 0xff) :=
  ⟨cookie_packing.1 3 5 6,
   cookie_packing.2 3 3 5 6 5 6 (by decide) (by decide) (by decide) (by decide)
     (by decide) (by decide) (by decide) (by decide)⟩

/-- C8 (confirmed): report emission is enabled at tester construction
(`NewTester` builds `maint{emitReport: 1, ...}`), and `writeReport`
performs a channel send exactly when the emit-enable flag is positive at
the time of the call; after `StopReport` no packet produces a send, and
`StartReport` restores emission. -/
theorem report_emission_gating :
    (∀ ch r, writeReport newTesterMaint ch r = ch ++ [r]) ∧
    (∀ t ch r, writeReport t ch r ≠ ch ↔ 0 < t.emitReport) ∧
    (∀ t ch r, writeReport (stopReport t) ch r = ch) ∧
    (∀ t ch r, writeReport (startReport t) ch r = ch ++ [r]) := by
  refine ⟨fun ch r => rfl, fun t ch r => ?_, fun t ch r => rfl, fun t ch r => rfl⟩
  unfold writeReport
  by_cases h : t.emitReport > 0
  · rw [if_pos h]
    refine ⟨fun _ => h, fun _ heq => ?_⟩
    have hl := congrArg List.length heq
    simp at hl
  · rw [if_neg h]
    exact ⟨fun hne => absurd rfl hne, fun hpos => absurd hpos h⟩

/-- C8 witness: a send from the fresh tester state, no send after
`StopReport`, and a send again after `StartReport`. -/
theorem report_emission_gating_witness :
    writeReport newTesterMaint [] {} = [({} : Report)] ∧
    writeReport (stopReport newTesterMaint) [] {} = [] ∧
    writeReport (startReport (stopReport newTesterMaint)) [] {} = [({} : Report)] :=
  ⟨report_emission_gating.1 [] {},
   report_emission_gating.2.2.1 newTesterMaint [] {},
   report_emission_gating.2.2.2 (stopReport newTesterMaint) [] {}⟩

/-- When the input is long enough, `parseIPv4Header` succeeds and the
parsed options have length `hdrlen - 20`. -/
theorem parseIPv4Header_ok {b : List Nat} (h20 : 20 ≤ b.length)
    (hh : ((b.getD 0 0 &&& 0xf) <<< 2) ≤ b.length) :
    ∃ hdr, parseIPv4Header b = .ok hdr ∧
      hdr.options.length = ((b.getD 0 0 &&& 0xf) <<< 2) - 20 := by
  unfold parseIPv4Header
  rw [if_neg (by omega), if_neg (by omega)]
  refine ⟨_, rfl, ?_⟩
  dsimp only
  split
  · rw [List.length_take, List.length_drop]
    omega
  · simp only [List.length_nil]
    omega

/-- C4 (counterexample): an ICMPv6 Destination Unreachable whose data
field is 10 bytes is shorter than the inner header length (40) plus
options (0) plus 8, yet `parseICMPError` fails with the header parser's
too-short error, not with the truncated-ICMP-error. -/
theorem parseICMPError_short_cex :
    parseICMPError ⟨ICMPType.v6 1, 0, 0, .dstUnreach (List.replicate 10 0)⟩
        = .error .headerTooShort ∧
    (List.replicate 10 (0 : Nat)).length < 40 + 0 + 8 ∧
    parseICMPError ⟨ICMPType.v6 1, 0, 0, .dstUnreach (List.replicate 10 0)⟩
        ≠ .error (.icmpErrorTooShort (ICMPType.v6 1) 0) := by
  exact ⟨rfl, by decide, by decide⟩

/-- C4 (corrected): for an ICMP error message whose embedded data is
shorter than the inner IP header length plus options length plus 8,
`parseICMPError` fails and returns no header or payload; the failure is
the truncated-ICMP-error exactly when the data still contains a complete
inner IP header (at least 20 bytes and at least `hdrlen` bytes for IPv4,
at least 40 bytes for IPv6), and the inner header parser's error
otherwise. -/
theorem parseICMPError_truncation (m : Message) (data : List Nat)
    (hb : errBodyData m.body = some data) :
    (m.type.protocol = ianaProtocolICMP → 20 ≤ data.length →
      ((data.getD 0 0 &&& 0xf) <<< 2) ≤ data.length →
      data.length < 20 + (((data.getD 0 0 &&& 0xf) <<< 2) - 20) + 8 →
      parseICMPError m = .error (.icmpErrorTooShort m.type m.code)) ∧
    (m.type.protocol = ianaProtocolICMP → data.length < 20 →
      parseICMPError m = .error .headerTooShort) ∧
    (m.type.protocol = ianaProtocolICMP → 20 ≤ data.length →
      data.length < ((data.getD 0 0 &&& 0xf) <<< 2) →
      parseICMPError m = .error .bufferTooShort) ∧
    (m.type.protocol = ianaProtocolIPv6ICMP → 40 ≤ data.length → data.length < 48 →
      parseICMPError m = .error (.icmpErrorTooShort m.type m.code)) ∧
    (m.type.protocol = ianaProtocolIPv6ICMP → data.length < 40 →
      parseICMPError m = .error .headerTooShort) := by
  have hdata : (errBodyData m.body).getD [] = data := by rw [hb]; rfl
  refine ⟨?_, ?_, ?_, ?_, ?_⟩
  · intro hp h20 hhl hshort
    obtain ⟨hdr, hok, hlen⟩ := parseIPv4Header_ok h20 hhl
    unfold parseICMPError
    rw [hdata, if_pos hp, hok]
    exact if_pos (show data.length < 20 + hdr.options.length + 8 by
      rw [hlen]; exact hshort)
  · intro hp hlt
    unfold parseICMPError
    rw [hdata, if_pos hp]
    have hE : parseIPv4Header data = .error .headerTooShort := by
      unfold parseIPv4Header
      rw [if_pos hlt]
    rw [hE]
  · intro hp h20 hlt
    unfold parseICMPError
    rw [hdata, if_pos hp]
    have hE : parseIPv4Header data = .error .bufferTooShort := by
      unfold parseIPv4Header
      rw [if_neg (by omega), if_pos hlt]
    rw [hE]
  · intro hp h40 hlt
    unfold parseICMPError
    rw [hdata, if_neg (by rw [hp]; decide), if_pos hp]
    have hE : ∃ hdr, parseIPv6Header data = .ok hdr := by
      unfold parseIPv6Header
      rw [if_neg (by omega)]
      exact ⟨_, rfl⟩
    obtain ⟨hdr, hok⟩ := hE
    rw [hok]
    exact if_pos (by omega)
  · intro hp hlt
    unfold parseICMPError
    rw [hdata, if_neg (by rw [hp]; decide), if_pos hp]
    have hE : parseIPv6Header data = .error .headerTooShort := by
      unfold parseIPv6Header
      rw [if_pos hlt]
    rw [hE]

theorem be16_div_mod (x : Nat) : be16 (x / 256) (x % 256) = x := by
  unfold be16
  rw [shiftLeft_lor_eq_add _ (show x % 256 < 2 ^ 8 by omega)]
  omega

theorem list_len_four {l : List Nat} (h : l.length = 4) : ∃ a b c d, l = [a, b, c, d] := by
  match l with
  | [a, b, c, d] => exact ⟨a, b, c, d, rfl⟩
  | [] | [_] | [_, _] | [_, _, _] => simp at h
  | _ :: _ :: _ :: _ :: _ :: _ => simp at h

/-- Parsing the wire bytes of a well-formed IPv4 header followed by any
suffix recovers the header. -/
theorem parseIPv4Header_roundTrip (h : IPv4Header) (b : List Nat)
    (hv : validIPv4Header h) :
    parseIPv4Header (marshalIPv4Header h ++ b) = .ok h := by
  obtain ⟨ver, len, tos, totalLen, id, flags, fragOff, ttl, protocol, checksum,
    src, dst, options⟩ := h
  unfold validIPv4Header at hv
  obtain ⟨hver, hlen, hmod4, hle40, htos, htl, hid, hfl, hfo, httl, hproto, hck,
    hsrc4, hdst4, hsB, hdB, hoB⟩ := hv
  dsimp only at hver hlen hmod4 hle40 htos htl hid hfl hfo httl hproto hck hsrc4 hdst4
  subst hver hlen
  obtain ⟨s0, s1, s2, s3, hs⟩ := list_len_four hsrc4
  obtain ⟨d0, d1, d2, d3, hd⟩ := list_len_four hdst4
  subst hs hd
  unfold marshalIPv4Header
  dsimp only
  simp only [List.cons_append, List.nil_append, List.append_assoc]
  unfold parseIPv4Header
  have hL : ((4 * 16 + (20 + options.length) / 4) :: tos :: totalLen / 256 ::
      totalLen % 256 :: id / 256 :: id % 256 :: (flags * 32 + fragOff / 256) ::
      fragOff % 256 :: ttl :: protocol :: checksum / 256 :: checksum % 256 ::
      s0 :: s1 :: s2 :: s3 :: d0 :: d1 :: d2 :: d3 :: (options ++ b)).length
      = 20 + options.length + b.length := by
    simp [List.length_append]
    omega
  have hhdr : (((4 * 16 + (20 + options.length) / 4) :: tos :: totalLen / 256 ::
      totalLen % 256 :: id / 256 :: id % 256 :: (flags * 32 + fragOff / 256) ::
      fragOff % 256 :: ttl :: protocol :: checksum / 256 :: checksum % 256 ::
      s0 :: s1 :: s2 :: s3 :: d0 :: d1 :: d2 :: d3 :: (options ++ b)).getD 0 0
        &&& 0xf) <<< 2 = 20 + options.length := by
    show ((4 * 16 + (20 + options.length) / 4) &&& 0xf) <<< 2 = 20 + options.length
    rw [and_mask_f, Nat.shiftLeft_eq]
    omega
  rw [if_neg (by rw [hL]; omega), hhdr, if_neg (by rw [hL]; omega)]
  simp only [Except.ok.injEq, IPv4Header.mk.injEq]
  refine ⟨?_, trivial, rfl, ?_, ?_, ?_, ?_, rfl, rfl, ?_, rfl, rfl, ?_⟩
  · show (4 * 16 + (20 + options.length) / 4) >>> 4 = 4
    rw [Nat.shiftRight_eq_div_pow]
    omega
  · exact be16_div_mod totalLen
  · exact be16_div_mod id
  · show ((flags * 32 + fragOff / 256) &&& 0xe0) >>> 5 = flags
    rw [and_mask_e0 _ (by omega), Nat.shiftRight_eq_div_pow]
    omega
  · show be16 (flags * 32 + fragOff / 256) (fragOff % 256) &&& 0x1fff = fragOff
    unfold be16
    rw [shiftLeft_lor_eq_add _ (show fragOff % 256 < 2 ^ 8 by omega), and_mask_1fff]
    have p8 : (2 : Nat) ^ 8 = 256 := by norm_num
    rw [p8]
    omega
  · exact be16_div_mod checksum
  · split
    · rw [show (20 : Nat) + options.length - 20 = options.length by omega]
      have hdrop : ((4 * 16 + (20 + options.length) / 4) :: tos :: totalLen / 256 ::
          totalLen % 256 :: id / 256 :: id % 256 :: (flags * 32 + fragOff / 256) ::
          fragOff % 256 :: ttl :: protocol :: checksum / 256 :: checksum % 256 ::
          s0 :: s1 :: s2 :: s3 :: d0 :: d1 :: d2 :: d3 :: (options ++ b)).drop 20
          = options ++ b := rfl
      rw [hdrop, List.take_left]
    · next hne =>
      have h0 : options.length = 0 := by omega
      exact (List.length_eq_zero.mp h0).symm

/-- Parsing the wire bytes of a well-formed IPv6 header followed by any
suffix recovers the header. -/
theorem parseIPv6Header_roundTrip (h : IPv6Header) (b : List Nat)
    (hv : validIPv6Header h) :
    parseIPv6Header (marshalIPv6Header h ++ b) = .ok h := by
  obtain ⟨ver, trafficClass, flowLabel, payloadLen, nextHeader, hopLimit, src, dst⟩ := h
  unfold validIPv6Header at hv
  obtain ⟨hver, htc, hflow, hpl, hnh, hhl, hsrc, hdst⟩ := hv
  dsimp only at hver htc hflow hpl hnh hhl hsrc hdst
  subst hver
  unfold marshalIPv6Header
  dsimp only
  simp only [List.cons_append, List.nil_append, List.append_assoc]
  unfold parseIPv6Header
  have hL : ((6 * 16 + trafficClass / 16) ::
      (trafficClass % 16 * 16 + flowLabel / 65536) :: flowLabel / 256 % 256 ::
      flowLabel % 256 :: payloadLen / 256 :: payloadLen % 256 :: nextHeader ::
      hopLimit :: (src ++ (dst ++ b))).length = 40 + b.length := by
    simp [List.length_append]
    omega
  rw [if_neg (by rw [hL]; omega)]
  simp only [Except.ok.injEq, IPv6Header.mk.injEq]
  have hdrop8 : ((6 * 16 + trafficClass / 16) ::
      (trafficClass % 16 * 16 + flowLabel / 65536) :: flowLabel / 256 % 256 ::
      flowLabel % 256 :: payloadLen / 256 :: payloadLen % 256 :: nextHeader ::
      hopLimit :: (src ++ (dst ++ b))).drop 8 = src ++ (dst ++ b) := rfl
  refine ⟨?_, ?_, ?_, ?_, rfl, rfl, ?_, ?_⟩
  · show (6 * 16 + trafficClass / 16) >>> 4 = 6
    rw [Nat.shiftRight_eq_div_pow]
    omega
  · show ((6 * 16 + trafficClass / 16) &&& 0xf) <<< 4 |||
        (trafficClass % 16 * 16 + flowLabel / 65536) >>> 4 = trafficClass
    rw [shiftLeft_lor_eq_add _ (show (trafficClass % 16 * 16 + flowLabel / 65536) >>> 4 < 2 ^ 4 by
      rw [Nat.shiftRight_eq_div_pow]; omega)]
    rw [and_mask_f, Nat.shiftRight_eq_div_pow]
    have p4 : (2 : Nat) ^ 4 = 16 := by norm_num
    rw [p4]
    omega
  · show ((trafficClass % 16 * 16 + flowLabel / 65536) &&& 0xf) <<< 16 |||
        (flowLabel / 256 % 256) <<< 8 ||| flowLabel % 256 = flowLabel
    rw [Nat.lor_assoc,
        shiftLeft_lor_eq_add _ (show flowLabel % 256 < 2 ^ 8 by omega)]
    have p8 : (2 : Nat) ^ 8 = 256 := by norm_num
    rw [p8]
    rw [shiftLeft_lor_eq_add _ (show flowLabel / 256 % 256 * 256 + flowLabel % 256 < 2 ^ 16 by
      omega)]
    rw [and_mask_f]
    have p16 : (2 : Nat) ^ 16 = 65536 := by norm_num
    rw [p16]
    omega
  · exact be16_div_mod payloadLen
  · rw [hdrop8, List.take_left' hsrc]
  · have hdrop24 : ((6 * 16 + trafficClass / 16) ::
        (trafficClass % 16 * 16 + flowLabel / 65536) :: flowLabel / 256 % 256 ::
        flowLabel % 256 :: payloadLen / 256 :: payloadLen % 256 :: nextHeader ::
        hopLimit :: (src ++ (dst ++ b))).drop 24 = dst ++ b := by
      show (src ++ (dst ++ b)).drop 16 = dst ++ b
      exact List.drop_left' hsrc
    rw [hdrop24, List.take_left' hdst]

theorem marshalIPv4Header_length (h : IPv4Header) (hv : validIPv4Header h) :
    (marshalIPv4Header h).length = 20 + h.options.length := by
  unfold validIPv4Header at hv
  obtain ⟨-, -, -, -, -, -, -, -, -, -, -, -, hsrc4, hdst4, -, -, -⟩ := hv
  unfold marshalIPv4Header
  simp [List.length_append, hsrc4, hdst4]
  omega

theorem marshalIPv6Header_length (h : IPv6Header) (hv : validIPv6Header h) :
    (marshalIPv6Header h).length = 40 := by
  unfold validIPv6Header at hv
  obtain ⟨-, -, -, -, -, -, hsrc, hdst⟩ := hv
  unfold marshalIPv6Header
  simp [List.length_append, hsrc, hdst]

/-- C5 (confirmed): for a well-formed IPv4 or IPv6 header `h` followed by
at least 8 inner bytes `b`, an ICMP Destination Unreachable message whose
data is `bytes(h) ++ b` parses back through `parseICMPError` to a header
equal to `h` and an original payload equal to `b`. -/
theorem parseICMPError_roundTrip (h4 : IPv4Header) (h6 : IPv6Header)
    (b4 b6 : List Nat) (code4 ck4 code6 ck6 : Nat) :
    (validIPv4Header h4 → 8 ≤ b4.length →
      parseICMPError ⟨ICMPType.v4 3, code4, ck4,
          .dstUnreach (marshalIPv4Header h4 ++ b4)⟩
        = .ok (some (.v4 h4), b4)) ∧
    (validIPv6Header h6 → 8 ≤ b6.length →
      parseICMPError ⟨ICMPType.v6 1, code6, ck6,
          .dstUnreach (marshalIPv6Header h6 ++ b6)⟩
        = .ok (some (.v6 h6), b6)) := by
  constructor
  · intro hv hb
    have hmlen := marshalIPv4Header_length h4 hv
    have hp := parseIPv4Header_roundTrip h4 b4 hv
    have hdrop : (marshalIPv4Header h4 ++ b4).drop (20 + h4.options.length) = b4 :=
      List.drop_left' hmlen
    have hcond : ¬((marshalIPv4Header h4 ++ b4).length < 20 + h4.options.length + 8) := by
      rw [List.length_append, hmlen]
      omega
    unfold parseICMPError
    rw [show (errBodyData (ICMPBody.dstUnreach (marshalIPv4Header h4 ++ b4))).getD []
        = marshalIPv4Header h4 ++ b4 from rfl,
      if_pos (show (Message.mk (ICMPType.v4 3) code4 ck4
          (ICMPBody.dstUnreach (marshalIPv4Header h4 ++ b4))).type.protocol
          = ianaProtocolICMP from rfl), hp]
    show (if (marshalIPv4Header h4 ++ b4).length < 20 + h4.options.length + 8
          then Except.error (ParseErr.icmpErrorTooShort (ICMPType.v4 3) code4)
          else Except.ok (some (IPHeader.v4 h4),
                 (marshalIPv4Header h4 ++ b4).drop (20 + h4.options.length)))
        = Except.ok (some (IPHeader.v4 h4), b4)
    rw [if_neg hcond, hdrop]
  · intro hv hb
    have hmlen := marshalIPv6Header_length h6 hv
    have hp := parseIPv6Header_roundTrip h6 b6 hv
    have hdrop : (marshalIPv6Header h6 ++ b6).drop 40 = b6 := List.drop_left' hmlen
    have hcond : ¬((marshalIPv6Header h6 ++ b6).length < 40 + 8) := by
      rw [List.length_append, hmlen]
      omega
    unfold parseICMPError
    rw [show (errBodyData (ICMPBody.dstUnreach (marshalIPv6Header h6 ++ b6))).getD []
        = marshalIPv6Header h6 ++ b6 from rfl,
      if_neg (show ¬((Message.mk (ICMPType.v6 1) code6 ck6
          (ICMPBody.dstUnreach (marshalIPv6Header h6 ++ b6))).type.protocol
          = ianaProtocolICMP) from by
        intro hcontra
        simp [ICMPType.protocol, ianaProtocolICMP, ianaProtocolIPv6ICMP] at hcontra),
      if_pos (show (Message.mk (ICMPType.v6 1) code6 ck6
          (ICMPBody.dstUnreach (marshalIPv6Header h6 ++ b6))).type.protocol
          = ianaProtocolIPv6ICMP from rfl), hp]
    show (if (marshalIPv6Header h6 ++ b6).length < 40 + 8
          then Except.error (ParseErr.icmpErrorTooShort (ICMPType.v6 1) code6)
          else Except.ok (some (IPHeader.v6 h6), (marshalIPv6Header h6 ++ b6).drop 40))
        = Except.ok (some (IPHeader.v6 h6), b6)
    rw [if_neg hcond, hdrop]

/-- A sample well-formed IPv4 header (with options) and IPv6 header. -/
def sampleIPv4Header : IPv4Header :=
  { version := 4, len := 28, tos := 3, totalLen := 44, id := 77,
    flags := 2, fragOff := 513, ttl := 64, protocol := 17, checksum := 9,
    src := [10, 0, 0, 1], dst := [10, 0, 0, 2], options := [7, 4, 0, 0, 131, 4, 0, 0] }

def sampleIPv6Header : IPv6Header :=
  { version := 6, trafficClass := 0xab, flowLabel := 0x12345, payloadLen := 8,
    nextHeader := 17, hopLimit := 64,
    src := List.replicate 16 1, dst := List.replicate 16 2 }

/-- C5 witness: the round trip at two concrete headers and an 8-byte
payload. -/
theorem parseICMPError_roundTrip_witness :
    parseICMPError ⟨ICMPType.v4 3, 0, 0,
        .dstUnreach (marshalIPv4Header sampleIPv4Header ++ [1, 2, 3, 4, 5, 6, 7, 8])⟩
      = .ok (some (.v4 sampleIPv4Header), [1, 2, 3, 4, 5, 6, 7, 8]) ∧
    parseICMPError ⟨ICMPType.v6 1, 0, 0,
        .dstUnreach (marshalIPv6Header sampleIPv6Header ++ [1, 2, 3, 4, 5, 6, 7, 8])⟩
      = .ok (some (.v6 sampleIPv6Header), [1, 2, 3, 4, 5, 6, 7, 8]) :=
  ⟨(parseICMPError_roundTrip sampleIPv4Header sampleIPv6Header
      [1, 2, 3, 4, 5, 6, 7, 8] [1, 2, 3, 4, 5, 6, 7, 8] 0 0 0 0).1
      (by decide) (by decide),
   (parseICMPError_roundTrip sampleIPv4Header sampleIPv6Header
      [1, 2, 3, 4, 5, 6, 7, 8] [1, 2, 3, 4, 5, 6, 7, 8] 0 0 0 0).2
      (by decide) (by decide)⟩

/-- The target's IP as extracted by `reachable`'s first type switch. -/
def targetIP : Addr → Option (List Nat)
  | .ipNet ip _ => some ip
  | .tcp ip => some ip
  | .udp ip => some ip
  | .ipa ip => some ip
  | .other => none

/-- The peer's IP as extracted by `reachable`'s second type switch. -/
def peerIP : Addr → Option (List Nat)
  | .tcp ip => some ip
  | .udp ip => some ip
  | .ipa ip => some ip
  | _ => none

/-- C9 (confirmed): for every target and peer address, `reachable` returns
true whenever the target IP is multicast; otherwise, for a peer of a known
shape, it returns containment of the peer's IP when the target is an IP
prefix, and IP equality with the peer's IP when it is not. -/
theorem reachable_spec (tgt fm : Addr) (tip fip : List Nat)
    (htip : targetIP tgt = some tip) :
    (isMulticast tip = true → reachable tgt fm = true) ∧
    (peerIP fm = some fip → isMulticast tip = false →
      reachable tgt fm = (match tgt with
        | .ipNet nip mask => ipnetContains nip mask fip
        | _ => ipEqual tip fip)) := by
  constructor
  · intro hm
    cases tgt <;> simp [targetIP] at htip <;> (try subst htip) <;> simp [reachable, hm]
  · intro hf hm
    cases tgt <;> simp [targetIP] at htip <;> (try subst htip) <;>
      cases fm <;> simp [peerIP] at hf <;> (try subst hf) <;> simp [reachable, hm]

/-- C9 witness: a multicast target with an unknown peer shape, and a
prefix target with a UDP peer. -/
theorem reachable_spec_witness :
    reachable (.ipa [224, 0, 0, 9]) .other = true ∧
    reachable (.ipNet [192, 168, 0, 0] [255, 255, 0, 0]) (.udp [192, 168, 3, 7])
      = ipnetContains [192, 168, 0, 0] [255, 255, 0, 0] [192, 168, 3, 7] :=
  ⟨(reachable_spec (.ipa [224, 0, 0, 9]) .other [224, 0, 0, 9] [] rfl).1 (by decide),
   (reachable_spec (.ipNet [192, 168, 0, 0] [255, 255, 0, 0]) (.udp [192, 168, 3, 7])
      [192, 168, 0, 0] [192, 168, 3, 7] rfl).2 rfl (by decide)⟩

/-- C1 (confirmed): in the maintenance receiver, a packet that parses as
an ICMP Echo Reply (IPv4 or IPv6) is handed to `writeReport` exactly when
`icmpCookie(connection protocol, echo id, echo seq)` equals the atomically
loaded cookie snapshot, or the platform is Linux and the connection is a
non-raw socket; otherwise no report is handed over, and in either case the
loop continues with the next read. -/
theorem monitor_echoReply_emit_iff (cfg : Config) (r : Report) (p : PacketIn)
    (m : Message) (id seq : Nat) (d : List Nat) (rest : List ReadEvent)
    (hm : parseMessage cfg.protocol p.rb = .ok m)
    (ht : m.type = ICMPType.v4 0 ∨ m.type = ICMPType.v6 129)
    (hb : m.body = .echo id seq d) :
    ((monitorIter cfg r p).2.isSome = true ↔
      icmpCookie cfg.protocol id seq = p.cookieAt 0 ∨
        (cfg.goos = "linux" ∧ cfg.rawSocket = false)) ∧
    monitorRun cfg r (.success p :: rest)
      = (match (monitorIter cfg r p).2 with
          | some rep => [rep]
          | none => []) ++ monitorRun cfg (monitorIter cfg r p).1 rest := by
  refine ⟨?_, rfl⟩
  unfold monitorIter
  rw [hm]
  simp only []
  rw [if_pos ht, hb]
  simp only []
  by_cases hc : icmpCookie (cfg.protocol : Int) id seq = p.cookieAt 0 ∨
      (cfg.goos = "linux" ∧ cfg.rawSocket = false)
  · rw [if_pos hc]
    simp [hc]
  · rw [if_neg hc]
    simp [hc]

def monitorCfgEx : Config :=
  { protocol := 1, rawSocket := true, goos := "plan9", interfaceByIndex := fun _ => none }

def monitorPktEx : PacketIn :=
  { now := 7, rb := [0, 0, 0, 0, 0, 5, 0, 7], hdr := none, cm := none,
    peer := [127, 0, 0, 1], cookieAt := fun _ => icmpCookie 1 5 7 }

/-- C1 witness: a matching IPv4 Echo Reply on a raw non-Linux tester is
emitted. -/
theorem monitor_echoReply_emit_iff_witness :
    (monitorIter monitorCfgEx {} monitorPktEx).2.isSome = true :=
  ((monitor_echoReply_emit_iff monitorCfgEx {} monitorPktEx
      ⟨ICMPType.v4 0, 0, 0, .echo 5 7 []⟩ 5 7 [] [] rfl (Or.inl rfl) rfl).1).mpr
    (Or.inl rfl)

/-- C3 (confirmed): one packet's dispatch loads the tester's cookie
atomically exactly once (into `mcookie`); the result of the iteration —
in particular the emit decision of each of the three comparing branches —
depends only on that single load: two runs whose cookie streams agree at
the single load agree entirely, whatever the cookie field holds later. -/
theorem monitor_cookie_snapshot (cfg : Config) (r : Report)
    (now : Nat) (rb : List Nat) (hdr : Option RecvIPv4Header) (cm : Option CtrlMsg)
    (peer : List Nat) (f g : Nat → Nat) (h : f 0 = g 0) :
    monitorIter cfg r ⟨now, rb, hdr, cm, peer, f⟩
      = monitorIter cfg r ⟨now, rb, hdr, cm, peer, g⟩ := by
  unfold monitorIter
  simp only [h]

/-- C3 witness: two cookie streams that agree only at the first load give
the same iteration result. -/
theorem monitor_cookie_snapshot_witness :
    monitorIter monitorCfgEx {}
        ⟨7, [0, 0, 0, 0, 0, 5, 0, 7], none, none, [127, 0, 0, 1], fun _ => 3⟩
      = monitorIter monitorCfgEx {}
        ⟨7, [0, 0, 0, 0, 0, 5, 0, 7], none, none, [127, 0, 0, 1],
          fun k => if k = 0 then 3 else 99⟩ :=
  monitor_cookie_snapshot monitorCfgEx {} 7 [0, 0, 0, 0, 0, 5, 0, 7] none none
    [127, 0, 0, 1] (fun _ => 3) (fun k => if k = 0 then 3 else 99) rfl

/-- C6 (confirmed): on the ICMP error path, when the inner IP header's
protocol/next-header is neither ICMPv4 (1), ICMPv6 (58) nor UDP (17), the
report is handed to `writeReport` unconditionally — no cookie comparison
is involved, whatever values the cookie stream holds. -/
theorem monitor_icmpError_defaultEmit (cfg : Config) (r : Report) (p : PacketIn)
    (m : Message) (oh : Option IPHeader) (op : List Nat)
    (hm : parseMessage cfg.protocol p.rb = .ok m)
    (ht : ¬(m.type = ICMPType.v4 0 ∨ m.type = ICMPType.v6 129))
    (hpe : parseICMPError m = .ok (oh, op))
    (hA : ¬(parseOrigIP oh = (ianaProtocolICMP : Nat) ∨
            parseOrigIP oh = (ianaProtocolIPv6ICMP : Nat)))
    (hB : ¬(parseOrigIP oh = (ianaProtocolUDP : Nat))) :
    (monitorIter cfg r p).2.isSome = true := by
  unfold monitorIter
  rw [hm]
  simp only []
  rw [if_neg ht, hpe]
  simp only []
  rw [if_neg hA, if_neg hB]
  simp

def fragCfgEx : Config :=
  { protocol := 58, rawSocket := true, goos := "plan9", interfaceByIndex := fun _ => none }

/-- An ICMPv6 Destination Unreachable whose inner IPv6 header carries the
fragment extension header (next header 44). -/
def fragPktEx : PacketIn :=
  { now := 3,
    rb := [1, 0, 0, 0] ++ [0, 0, 0, 0] ++
      ([0x60, 0, 0, 0, 0, 8, 44, 64] ++ List.replicate 16 0 ++ List.replicate 16 0) ++
      [1, 2, 3, 4, 5, 6, 7, 8],
    hdr := none, cm := none, peer := List.replicate 16 0, cookieAt := fun _ => 0 }

/-- C6 witness: the fragment-extension error packet is emitted even though
no cookie matches. -/
theorem monitor_icmpError_defaultEmit_witness :
    (monitorIter fragCfgEx {} fragPktEx).2.isSome = true :=
  monitor_icmpError_defaultEmit fragCfgEx {} fragPktEx
    ⟨ICMPType.v6 1, 0, 0,
      .dstUnreach (([0x60, 0, 0, 0, 0, 8, 44, 64] ++ List.replicate 16 0 ++
        List.replicate 16 0) ++ [1, 2, 3, 4, 5, 6, 7, 8])⟩
    (some (.v6 ⟨6, 0, 0, 8, 44, 64, List.replicate 16 0, List.replicate 16 0⟩))
    [1, 2, 3, 4, 5, 6, 7, 8]
    (by decide) (by decide) (by decide) (by decide) (by decide)

def leakCfg : Config :=
  { protocol := 1, rawSocket := true, goos := "plan9", interfaceByIndex := fun _ => none }

/-- A one-byte packet: `icmp.ParseMessage` fails with the message-too-short
error, so the iteration emits an error report. -/
def leakPkt1 : PacketIn :=
  { now := 11, rb := [0], hdr := none, cm := none, peer := [9, 9, 9, 9],
    cookieAt := fun _ => 0 }

/-- A well-formed IPv4 Echo Reply with id 5, seq 7, matching the cookie. -/
def leakPkt2 : PacketIn :=
  { now := 22, rb := [0, 0, 0, 0, 0, 5, 0, 7], hdr := none, cm := none,
    peer := [10, 0, 0, 1], cookieAt := fun _ => icmpCookie 1 5 7 }

/-- C2 (code_bug): the `Report` variable is declared once, before
`monitor`'s loop, and its `Error` field is never reset; after a packet
whose parse fails, the next packet's report still carries the stale error.
At the concrete two-packet input below, the second handed report parses as
a fresh matching Echo Reply, yet its `Error` field equals the first
packet's parse error instead of being empty. -/
theorem monitor_report_stale_error :
    (monitorRun leakCfg {} [.success leakPkt1, .success leakPkt2]).length = 2 ∧
    ((monitorRun leakCfg {} [.success leakPkt1, .success leakPkt2]).getD 1 default).icmp
      = some ⟨ICMPType.v4 0, 0, 0, .echo 5 7 []⟩ ∧
    ((monitorRun leakCfg {} [.success leakPkt1, .success leakPkt2]).getD 1 default).error
      = some (.parse .messageTooShort) ∧
    ((monitorRun leakCfg {} [.success leakPkt1, .success leakPkt2]).getD 1 default).error
      ≠ none := by
  refine ⟨rfl, rfl, rfl, by decide⟩

/-- C4 witness: a 20-byte IPv4 data field (complete minimal header, no
inner transport) and a 44-byte IPv6 data field both fail with the
truncated-ICMP-error. -/
theorem parseICMPError_truncation_witness :
    parseICMPError ⟨ICMPType.v4 3, 1, 0, .dstUnreach (List.replicate 20 0)⟩
        = .error (.icmpErrorTooShort (ICMPType.v4 3) 1) ∧
    parseICMPError ⟨ICMPType.v6 3, 0, 0, .timeExceeded (List.replicate 44 5)⟩
        = .error (.icmpErrorTooShort (ICMPType.v6 3) 0) :=
  ⟨(parseICMPError_truncation ⟨ICMPType.v4 3, 1, 0, .dstUnreach (List.replicate 20 0)⟩
      (List.replicate 20 0) rfl).1 rfl (by decide) (by decide) (by decide),
   (parseICMPError_truncation ⟨ICMPType.v6 3, 0, 0, .timeExceeded (List.replicate 44 5)⟩
      (List.replicate 44 5) rfl).2.2.2.1 rfl (by decide) (by decide)⟩
